import Mathlib

/-!
Verification of the spreadsheet-to-relational seeding pipeline
(`scripts/seed.py`).

The script is shallowly embedded: spreadsheet cell values become the
inductive `Cell`, Python floats become exact rationals (the kernel-computable `PyRat`), Python
dicts posted to the backend become ordered association lists
(`Rec := List (String × Value)`), and the remote backend is abstracted
by an environment (`ResolveEnv`) holding the decoded result of each
remote call the script makes, while the pipeline's own output is the
trace of calls it issues (`Step`).

Modelling conventions, stated once:
* Python float values and arithmetic are modelled on exact rationals;
  `round(x, nd)` is modelled as round-half-to-even on the exact value.
* Python string operations are modelled for the ASCII range
  (`str.strip` as `String.trim`, `str.lower` as `Char.toLower`).
* `float(str)` parsing is modelled for the decimal-literal forms
  (sign, digits, decimal point, exponent, surrounding whitespace);
  Python's `inf`/`nan` spellings and digit underscores are not modelled,
  and no claim depends on them.
-/

/-- Exact rational number used to model Python float values. The
arithmetic of Mathlib's `Rat` is irreducible, so concrete runs of the
embedded pipeline could not be evaluated inside proofs; `PyRat` keeps a
normalised numerator/denominator pair with fully reducible operations
instead. The denominator is kept positive and coprime to the numerator
by every smart constructor, so structural equality is value equality
for every value the embedding builds. -/
structure PyRat where
  num : Int
  den : Nat
deriving DecidableEq

/-- Normalised fraction `nu / de` (with `de = 0` mapped to zero, a case
no caller reaches). -/
def PyRat.mk' (nu : Int) (de : Nat) : PyRat :=
  if de = 0 then ⟨0, 1⟩
  else
    let g := nu.natAbs.gcd de
    ⟨nu / (g : Int), de / g⟩

/-- Embed an integer. -/
def PyRat.ofInt (k : Int) : PyRat := ⟨k, 1⟩

instance : NatCast PyRat := ⟨fun nn => ⟨(nn : Int), 1⟩⟩

instance : IntCast PyRat := ⟨PyRat.ofInt⟩

instance (nn : Nat) : OfNat PyRat nn := ⟨⟨(nn : Int), 1⟩⟩

/-- Decimal literals: `1.15` elaborates to `PyRat.mk' 115 100`. -/
instance : OfScientific PyRat :=
  ⟨fun m b e => if b then PyRat.mk' (m : Int) (10 ^ e) else ⟨(m : Int) * (10 : Int) ^ e, 1⟩⟩

instance : Add PyRat :=
  ⟨fun a b => PyRat.mk' (a.num * (b.den : Int) + b.num * (a.den : Int)) (a.den * b.den)⟩

instance : Sub PyRat :=
  ⟨fun a b => PyRat.mk' (a.num * (b.den : Int) - b.num * (a.den : Int)) (a.den * b.den)⟩

instance : Mul PyRat := ⟨fun a b => PyRat.mk' (a.num * b.num) (a.den * b.den)⟩

/-- Signed-denominator variant of `PyRat.mk'`, for division. -/
def PyRat.mkD (nu de : Int) : PyRat :=
  if de < 0 then PyRat.mk' (-nu) (-de).toNat else PyRat.mk' nu de.toNat

instance : Div PyRat := ⟨fun a b => PyRat.mkD (a.num * (b.den : Int)) ((a.den : Int) * b.num)⟩

instance : HPow PyRat Nat PyRat := ⟨fun a k => ⟨a.num ^ k, a.den ^ k⟩⟩

instance : LT PyRat := ⟨fun a b => a.num * (b.den : Int) < b.num * (a.den : Int)⟩

instance (a b : PyRat) : Decidable (a < b) :=
  inferInstanceAs (Decidable (a.num * (b.den : Int) < b.num * (a.den : Int)))

/-- Floor of a `PyRat` as an integer. -/
def PyRat.floor (a : PyRat) : Int := a.num.fdiv (a.den : Int)

/-- Ceiling of a `PyRat` as an integer. -/
def PyRat.ceil (a : PyRat) : Int := -((-a.num).fdiv (a.den : Int))

/-- Value of a spreadsheet cell as returned by the workbook reader:
either missing (`None` in Python) or a string / int / float / bool. -/
inductive Cell where
  | none
  | str (t : String)
  | int (k : Int)
  | float (q : PyRat)
  | bool (b : Bool)
deriving DecidableEq

/-- Numeric value of a list of decimal digit characters. -/
def digitsVal (ds : List Char) : Nat :=
  ds.foldl (fun a c => 10 * a + (c.toNat - '0'.toNat)) 0

/-- Strip leading and trailing whitespace from a character list. -/
def trimChars (cs : List Char) : List Char :=
  ((cs.dropWhile Char.isWhitespace).reverse.dropWhile Char.isWhitespace).reverse

/-- Python `str.strip()`, modelled for ASCII whitespace and implemented
on the character list (Lean's `String.trim` does not reduce inside the
kernel). -/
def pyStrip (t : String) : String := String.mk (trimChars t.data)

/-- First `k` characters of a string (`t[:k]` in Python). -/
def strTake (t : String) (k : Nat) : String := String.mk (t.data.take k)

/-- Parse an optionally signed run of digits (the exponent of a float
literal); `Option.none` when malformed. -/
def parseSignedDigits (cs : List Char) : Option Int :=
  let p : Int × List Char :=
    match cs with
    | '+' :: r => (1, r)
    | '-' :: r => (-1, r)
    | r => (1, r)
  if p.2 ≠ [] ∧ p.2.all Char.isDigit then some (p.1 * digitsVal p.2)
  else Option.none

/-- Parse the exponent suffix of a float literal: empty means exponent 0. -/
def parseExpPart (cs : List Char) : Option Int :=
  match cs with
  | [] => some 0
  | 'e' :: r => parseSignedDigits r
  | 'E' :: r => parseSignedDigits r
  | _ => Option.none

/-- Python `float(t)` on a string: strips whitespace and parses a signed
decimal literal with optional fraction and exponent; `Option.none` models
`ValueError`. -/
def parseFloat (t : String) : Option PyRat :=
  let cs := trimChars t.data
  let sgn : Int × List Char :=
    match cs with
    | '+' :: r => (1, r)
    | '-' :: r => (-1, r)
    | r => (1, r)
  let ip := sgn.2.takeWhile Char.isDigit
  let rest1 := sgn.2.dropWhile Char.isDigit
  let fp : List Char × List Char :=
    match rest1 with
    | '.' :: r => (r.takeWhile Char.isDigit, r.dropWhile Char.isDigit)
    | r => ([], r)
  if ip = [] ∧ fp.1 = [] then Option.none
  else
    match parseExpPart fp.2 with
    | Option.none => Option.none
    | some e =>
      let mant : PyRat := (digitsVal ip : PyRat) + (digitsVal fp.1 : PyRat) / (10 : PyRat) ^ fp.1.length
      let scaled : PyRat := if 0 ≤ e then mant * (10 : PyRat) ^ e.toNat else mant / (10 : PyRat) ^ (-e).toNat
      some ((sgn.1 : PyRat) * scaled)

/-- Smallest decimal scaling of a rational: `some (k, m)` when
`q = m / 10^k` with `k` minimal (searched up to the given fuel). -/
def decScale : Nat → PyRat → Option (Nat × Int)
  | 0, q => if q.den = 1 then some (0, q.num) else Option.none
  | fuel + 1, q =>
    if q.den = 1 then some (0, q.num)
    else
      match decScale fuel (q * 10) with
      | some (k, m) => some (k + 1, m)
      | Option.none => Option.none

/-- Python `str(x)` on a float, modelled for rationals with a finite
decimal expansion (the plain `digits.digits` rendering; Python's switch
to scientific notation for extreme magnitudes is not modelled, and no
claim depends on this rendering). -/
def floatRepr (q : PyRat) : String :=
  match decScale 64 q with
  | some (0, m) => toString m ++ ".0"
  | some (k, m) =>
    let a := m.natAbs
    let ds := (toString a).data
    let ds := if ds.length ≤ k then List.replicate (k + 1 - ds.length) '0' ++ ds else ds
    let ipart := ds.take (ds.length - k)
    let fpart := ds.drop (ds.length - k)
    (if m < 0 then "-" else "") ++ String.mk ipart ++ "." ++ String.mk fpart
  | Option.none => toString q.num ++ "/" ++ toString q.den

/-- Python `float(v)` applied to a cell value; `Option.none` models the
raised `TypeError`/`ValueError`. -/
def pyFloat : Cell → Option PyRat
  | Cell.none => Option.none
  | Cell.str t => parseFloat t
  | Cell.int k => some (k : PyRat)
  | Cell.float q => some q
  | Cell.bool b => some (if b then 1 else 0)

/-- Python `int(x)` on a float: truncation toward zero. -/
def ratTrunc (q : PyRat) : Int :=
  if q < 0 then q.ceil else q.floor

/-- `n(v)` of seed.py (lines 24-28): safely convert to number.
`if v is None: return None; try: return float(v); except: return None`. -/
def n (v : Cell) : Option PyRat :=
  match v with
  | Cell.none => Option.none
  | v => pyFloat v

/-- `s(v)` of seed.py (lines 30-33): safely convert to string.
`if v is None: return None; return str(v).strip()`. -/
def s : Cell → Option String
  | Cell.none => Option.none
  | Cell.str t => some (pyStrip t)
  | Cell.int k => some (toString k)
  | Cell.float q => some (floatRepr q)
  | Cell.bool b => some (if b then "True" else "False")

/-- `i(v)` of seed.py (lines 35-39): safely convert to int.
`if v is None: return None; try: return int(float(v)); except: return None`. -/
def i (v : Cell) : Option Int :=
  match v with
  | Cell.none => Option.none
  | v => (pyFloat v).map ratTrunc

/-- Python truthiness of an optional string (`None` and `""` are falsy). -/
def strTruthy : Option String → Bool
  | Option.none => false
  | some t => t != ""

/-- Python truthiness of an optional int (`None` and `0` are falsy). -/
def intTruthy : Option Int → Bool
  | Option.none => false
  | some k => k != 0

/-- Python truthiness of an optional float (`None` and `0.0` are falsy). -/
def ratTruthy : Option PyRat → Bool
  | Option.none => false
  | some q => q != 0

/-- Python `str.lower()`, modelled for the ASCII range. -/
def pyLower (t : String) : String := String.mk (t.data.map Char.toLower)

/-- Boolean prefix test on character lists. -/
def startsWithL : List Char → List Char → Bool
  | [], _ => true
  | _ :: _, [] => false
  | a :: as, b :: bs => (a == b) && startsWithL as bs

/-- Boolean substring-occurrence test on character lists. -/
def infixL (ndl : List Char) : List Char → Bool
  | [] => ndl.isEmpty
  | b :: bs => startsWithL ndl (b :: bs) || infixL ndl bs

/-- Python `ndl in hay` on strings: substring containment. -/
def pyIn (ndl hay : String) : Bool := infixL ndl.toList hay.toList

/-- Round-half-to-even of a rational to an integer. -/
def roundHalfEven (x : PyRat) : Int :=
  let f : Int := x.floor
  let frac := x - (f : PyRat)
  if frac < 1 / 2 then f
  else if 1 / 2 < frac then f + 1
  else if f % 2 = 0 then f else f + 1

/-- Python `round(x, nd)`, modelled as half-to-even rounding of the
exact rational to `nd` decimal places. -/
def pyRound (nd : Nat) (x : PyRat) : PyRat :=
  (roundHalfEven (x * (10 : PyRat) ^ nd) : PyRat) / (10 : PyRat) ^ nd

/-- Value stored in a record field of a JSON payload posted to the
backend: Python `None`, `str`, `int`, `float` or `bool`. -/
inductive Value where
  | null
  | str (t : String)
  | int (k : Int)
  | num (q : PyRat)
  | bool (b : Bool)
deriving DecidableEq

/-- Record posted to the backend: a Python dict modelled as an ordered
association list from field name to value. -/
abbrev Rec : Type := List (String × Value)

/-- First value stored under a key, `Option.none` when the key is absent
(Python `d.get(key)` on dicts with unique keys). -/
def getField (key : String) : Rec → Option Value
  | [] => Option.none
  | (k, v) :: r => if k = key then some v else getField key r

/-- Embed an optional string as a field value. -/
def vs : Option String → Value
  | Option.none => Value.null
  | some t => Value.str t

/-- Embed an optional number as a field value. -/
def vn : Option PyRat → Value
  | Option.none => Value.null
  | some q => Value.num q

/-- Embed an optional int as a field value. -/
def vi : Option Int → Value
  | Option.none => Value.null
  | some k => Value.int k

/-- One worksheet: cell lookup by column letter and row number
(`ws[f"C{r}"].value`), plus `ws.max_row`. -/
structure Sheet where
  cell : String → Nat → Cell
  maxRow : Nat

/-- The four sheets of the workbook that seed.py reads, keyed by the
names it uses: "Roster & Tables", "INVENTORY", "DEAL LOG",
"MAIL TRACKING". -/
structure Workbook where
  rosterTables : Sheet
  inventory : Sheet
  dealLog : Sheet
  mailTracking : Sheet

/-- `roles_map` of seed.py (line 103) together with the
`roles_map.get(name, "sales")` lookup of line 108. -/
def roles_map (name : String) : String :=
  if name = "BRYAN ROGERS" ∨ name = "BRYANTROGERS" then "team_leader" else "sales"

/-- Body of the roster loop (seed.py lines 104-116): the record appended
for one sheet row, or `Option.none` when the row is skipped
(`if not name or name.lower() in ("none", "spare"): continue`). -/
def rosterRow (event_id : String) (ws : Sheet) (row : Nat) : Option Rec :=
  let name := s (ws.cell "C" row)
  let phone := s (ws.cell "D" row)
  if !strTruthy name || (pyLower (name.getD "") == "none") || (pyLower (name.getD "") == "spare") then
    Option.none
  else
    let nm := name.getD ""
    some [("event_id", Value.str event_id),
          ("name", Value.str nm),
          ("phone", vs phone),
          ("role", Value.str (roles_map nm)),
          ("confirmed", Value.bool true),
          ("commission_pct", Value.num (0.25 : PyRat))]

/-- `roster_data` accumulated over `range(2, 18)` (seed.py lines 102-116). -/
def roster_data (event_id : String) (ws : Sheet) : List Rec :=
  (List.range' 2 16).filterMap (rosterRow event_id ws)

/-- Body of the lenders loop (seed.py lines 123-131): skipped when the
name is falsy. -/
def lenderRow (event_id : String) (ws : Sheet) (row : Nat) : Option Rec :=
  let name := s (ws.cell "I" row)
  let pct := n (ws.cell "K" row)
  if !strTruthy name then Option.none
  else
    some [("event_id", Value.str event_id),
          ("name", Value.str (name.getD "")),
          ("buy_rate_pct", vn pct)]

/-- `lenders_data` accumulated over `range(2, 20)` (seed.py lines 122-131). -/
def lenders_data (event_id : String) (ws : Sheet) : List Rec :=
  (List.range' 2 18).filterMap (lenderRow event_id ws)

/-- The four pricing multipliers with their field-name suffixes
(seed.py line 176). -/
def tierList : List (PyRat × String) :=
  [((1.15 : PyRat), "115"), ((1.20 : PyRat), "120"), ((1.25 : PyRat), "125"), ((1.30 : PyRat), "130")]

/-- The eight pricing-tier fields added by the loop of seed.py
lines 176-180, in insertion order. -/
def tierFields (jd_trade unit_cost : PyRat) : Rec :=
  tierList.foldl
    (fun acc mp =>
      let price := pyRound 2 (jd_trade * mp.1)
      let profit := pyRound 2 (price - unit_cost)
      acc ++ [("price_" ++ mp.2, Value.num price), ("profit_" ++ mp.2, Value.num profit)])
    []

/-- `inv_item` of seed.py (lines 141-182): the record built for one
inventory row, including the conditionally added derived fields
(`if jd_trade and unit_cost:` and `if jd_retail and unit_cost:`). -/
def inv_item (event_id : String) (ws : Sheet) (row : Nat) : Rec :=
  let hat := i (ws.cell "A" row)
  let name_val := s (ws.cell "G" row)
  let unit_cost := n (ws.cell "Q" row)
  let jd_trade := n (ws.cell "O" row)
  let jd_retail := n (ws.cell "P" row)
  let sold_raw := s (ws.cell "C" row)
  let sold_status := if strTruthy sold_raw && pyIn "sold" (pyLower (sold_raw.getD "")) then "sold" else "available"
  [("event_id", Value.str event_id),
   ("hat_number", vi hat),
   ("status_label", vs (s (ws.cell "B" row))),
   ("sold_status", Value.str sold_status),
   ("stock_number", vs (s (ws.cell "D" row))),
   ("year", vi (i (ws.cell "E" row))),
   ("make", vs (s (ws.cell "F" row))),
   ("model", vs name_val),
   ("class", vs (s (ws.cell "H" row))),
   ("color", vs (s (ws.cell "I" row))),
   ("odometer", vi (i (ws.cell "J" row))),
   ("vin", vs (s (ws.cell "K" row))),
   ("series_trim", vs (s (ws.cell "L" row))),
   ("age_days", vi (i (ws.cell "M" row))),
   ("drivetrain", vs (s (ws.cell "N" row))),
   ("jd_trade_clean", vn jd_trade),
   ("jd_retail_clean", vn jd_retail),
   ("unit_cost", vn unit_cost)]
  ++ (if ratTruthy jd_trade && ratTruthy unit_cost then
        ("cost_diff", Value.num (pyRound 2 (jd_trade.getD 0 - unit_cost.getD 0)))
          :: tierFields (jd_trade.getD 0) (unit_cost.getD 0)
      else [])
  ++ (if ratTruthy jd_retail && ratTruthy unit_cost then
        [("retail_spread", Value.num (pyRound 2 (jd_retail.getD 0 - unit_cost.getD 0)))]
      else [])

/-- Row-qualification of the inventory loop (seed.py line 143):
`if not name_val and not hat: continue`. -/
def invRow (event_id : String) (ws : Sheet) (row : Nat) : Option Rec :=
  if !strTruthy (s (ws.cell "G" row)) && !intTruthy (i (ws.cell "A" row)) then Option.none
  else some (inv_item event_id ws row)

/-- `inv_data` accumulated over `range(2, ws_inv.max_row + 1)`
(seed.py lines 139-184). -/
def inv_data (event_id : String) (ws : Sheet) : List Rec :=
  (List.range' 2 (ws.maxRow - 1)).filterMap (invRow event_id ws)

/-- Body of the deals loop (seed.py lines 197-237): skipped when both
customer and stock number are falsy. -/
def dealRow (event_id : String) (ws : Sheet) (row : Nat) : Option Rec :=
  let customer := s (ws.cell "I" row)
  let stock := s (ws.cell "H" row)
  if !strTruthy customer && !strTruthy stock then Option.none
  else
    some [("event_id", Value.str event_id),
          ("deal_number", vi (i (ws.cell "E" row))),
          ("sale_day", Value.int 1),
          ("store", vs (s (ws.cell "G" row))),
          ("stock_number", vs stock),
          ("customer_name", vs customer),
          ("zip_code", vs (s (ws.cell "J" row))),
          ("new_used", vs (s (ws.cell "K" row))),
          ("purchase_year", vi (i (ws.cell "L" row))),
          ("purchase_make", vs (s (ws.cell "M" row))),
          ("purchase_model", vs (s (ws.cell "N" row))),
          ("vehicle_cost", vn (n (ws.cell "O" row))),
          ("vehicle_age", vi (i (ws.cell "P" row))),
          ("trade_year", vi (i (ws.cell "Q" row))),
          ("trade_make", vs (s (ws.cell "R" row))),
          ("trade_model", vs (s (ws.cell "S" row))),
          ("salesperson", vs (s (ws.cell "W" row))),
          ("second_salesperson", vs (s (ws.cell "X" row))),
          ("front_gross", vn (n (ws.cell "Y" row))),
          ("lender", vs (s (ws.cell "Z" row))),
          ("rate", vn (n (ws.cell "AA" row))),
          ("reserve", vn (n (ws.cell "AB" row))),
          ("warranty", vn (n (ws.cell "AC" row))),
          ("aft1", vn (n (ws.cell "AD" row))),
          ("gap", vn (n (ws.cell "AE" row))),
          ("fi_total", vn (n (ws.cell "AF" row))),
          ("total_gross", vn (n (ws.cell "AG" row))),
          ("jde_pay", vn (n (ws.cell "AK" row))),
          ("source", Value.str "Mail")]

/-- `deals_data` accumulated over `range(9, ws_deals.max_row + 1)`
(seed.py lines 196-237). -/
def deals_data (event_id : String) (ws : Sheet) : List Rec :=
  (List.range' 9 (ws.maxRow - 8)).filterMap (dealRow event_id ws)

/-- Body of the mail-tracking loop (seed.py lines 247-271): skipped when
zip code or town is falsy; response rate computed only when both pieces
and total responses are truthy (`round(total_resp / pieces, 4) if pieces
and total_resp else 0`). -/
def mailRow (event_id : String) (ws : Sheet) (row : Nat) : Option Rec :=
  let zip_code := s (ws.cell "E" row)
  let town := s (ws.cell "D" row)
  if !strTruthy zip_code || !strTruthy town then Option.none
  else
    let pieces := i (ws.cell "B" row)
    let total_resp := i (ws.cell "F" row)
    some [("event_id", Value.str event_id),
          ("campaign_name", Value.str "WIN BIG"),
          ("zip_code", Value.str (zip_code.getD "")),
          ("town", Value.str (town.getD "")),
          ("pieces_sent", vi pieces),
          ("day1_responses", Value.int ((i (ws.cell "G" row)).getD 0)),
          ("day2_responses", Value.int ((i (ws.cell "H" row)).getD 0)),
          ("day3_responses", Value.int ((i (ws.cell "I" row)).getD 0)),
          ("day4_responses", Value.int ((i (ws.cell "J" row)).getD 0)),
          ("day5_responses", Value.int ((i (ws.cell "K" row)).getD 0)),
          ("day6_responses", Value.int ((i (ws.cell "L" row)).getD 0)),
          ("day7_responses", Value.int ((i (ws.cell "M" row)).getD 0)),
          ("total_responses", Value.int (total_resp.getD 0)),
          ("response_rate",
            if intTruthy pieces && intTruthy total_resp then
              Value.num (pyRound 4 (((total_resp.getD 0 : Int) : PyRat) / ((pieces.getD 0 : Int) : PyRat)))
            else Value.int 0)]

/-- `mail_data` accumulated over `range(2, ws_mail.max_row + 1)`
(seed.py lines 246-271). -/
def mail_data (event_id : String) (ws : Sheet) : List Rec :=
  (List.range' 2 (ws.maxRow - 1)).filterMap (mailRow event_id ws)

/-- The `config` dict of seed.py lines 281-298. -/
def config_record (event_id : String) : Rec :=
  [("event_id", Value.str event_id),
   ("dealer_name", Value.str "Lincoln CDJR"),
   ("franchise", Value.str "Chrysler Dodge Jeep Ram"),
   ("city", Value.str "Lincoln"),
   ("state", Value.str "IL"),
   ("zip", Value.str "62656"),
   ("sale_days", Value.int 6),
   ("doc_fee", Value.num (377.65 : PyRat)),
   ("tax_rate", Value.num (0.0625 : PyRat)),
   ("pack", Value.int 0),
   ("mail_title", Value.str "WIN BIG"),
   ("mail_pieces", Value.int 70000),
   ("jde_commission_pct", Value.num (0.35 : PyRat)),
   ("rep_commission_pct", Value.num (0.25 : PyRat)),
   ("target_units", Value.int 50),
   ("target_avg_gross", Value.num (8144.35 : PyRat))]

/-- The base `event_data` dict of seed.py lines 54-62 (without the
conditionally attached `created_by`). -/
def base_event_data : Rec :=
  [("name", Value.str "Lincoln CDJR Feb/March 26"),
   ("slug", Value.str "lincoln-cdjr-feb-march-26"),
   ("status", Value.str "active"),
   ("location", Value.str "Lincoln, IL 62656"),
   ("start_date", Value.str "2026-02-24"),
   ("end_date", Value.str "2026-03-03"),
   ("budget", Value.int 50000)]

/-- Decoded results of the remote calls the resolution phase can make.
Query results are given after JSON decoding: `q1`/`q2` are the two
`GET events` calls (`Option.none` models the client's error sentinel,
each row an `(id, name)` pair), `profiles` the `GET profiles` call,
`postEvents` the `POST events` response (ids of the created rows) as a
function of the posted payload, and `sqlId` the id, if any, extracted
from the privileged management-API fallback response
(abstracting seed.py lines 73-88). -/
structure ResolveEnv where
  q1 : Option (List (String × String))
  profiles : Option (List String)
  postEvents : Rec → Option (List String)
  sqlId : Option String
  q2 : Option (List (String × String))

/-- One remote call issued by the pipeline, in program order: the
resolution-phase calls, then one `postChild` per child-table POST. -/
inductive Step where
  | getEvents
  | getProfiles
  | postEvents (d : Rec)
  | sqlFallback
  | getEventsRetry
  | postChild (table : String) (recs : List Rec)
deriving DecidableEq

/-- Whether a step is a child-table write. -/
def Step.isChild : Step → Bool
  | Step.postChild _ _ => true
  | _ => false

/-- The `user_id` looked up from the profiles table (seed.py lines 52-53):
`users[0]["id"] if users and len(users) > 0 else None`. -/
def resolve_user_id (env : ResolveEnv) : Option String :=
  match env.profiles with
  | some (u :: _) => some u
  | _ => Option.none

/-- The `event_data` payload (seed.py lines 54-64), with `created_by`
attached when a truthy user id was found. -/
def resolve_event_data (env : ResolveEnv) : Rec :=
  if strTruthy (resolve_user_id env) then
    base_event_data ++ [("created_by", Value.str ((resolve_user_id env).getD ""))]
  else base_event_data

/-- The event id yielded by the standard `POST events` path (seed.py
lines 65-66): `result[0]["id"] if result and len(result) > 0 else None`. -/
def resolve_post_id (env : ResolveEnv) : Option String :=
  match env.postEvents (resolve_event_data env) with
  | some (r0 :: _) => some r0
  | _ => Option.none

/-- The event id after the privileged SQL fallback (seed.py lines
70-88): the id extracted from the management-API response when one was
found, otherwise the previous value. -/
def resolve_sql_id (env : ResolveEnv) : Option String :=
  match env.sqlId with
  | some x => some x
  | Option.none => resolve_post_id env

/-- The event id after the final re-query (seed.py lines 89-93): the
first row's id when the re-query returned rows, otherwise the previous
value. -/
def resolve_retry_id (env : ResolveEnv) : Option String :=
  match env.q2 with
  | some (e :: _) => some e.1
  | _ => resolve_sql_id env

/-- Entity resolution (seed.py lines 44-93): returns the final value of
the `event_id` variable together with the remote calls issued.
`Option.none` models Python `None`; note the final value can also be a
falsy `some ""` when a backend row carried an empty id. -/
def resolveEvent (env : ResolveEnv) : Option String × List Step :=
  match env.q1 with
  | some (e :: _) => (some e.1, [Step.getEvents])
  | _ =>
    if strTruthy (resolve_post_id env) then
      (resolve_post_id env,
       [Step.getEvents, Step.getProfiles, Step.postEvents (resolve_event_data env)])
    else if strTruthy (resolve_sql_id env) then
      (resolve_sql_id env,
       [Step.getEvents, Step.getProfiles, Step.postEvents (resolve_event_data env),
        Step.sqlFallback])
    else
      (resolve_retry_id env,
       [Step.getEvents, Step.getProfiles, Step.postEvents (resolve_event_data env),
        Step.sqlFallback, Step.getEventsRetry])

/-- Structural worker for `chunksOf`: the first argument is fuel, at
least the length of the list (well-founded recursion would not reduce
inside the kernel). -/
def chunksOfGo (k : Nat) : Nat → List α → List (List α)
  | _, [] => []
  | 0, _ :: _ => []
  | fuel + 1, a :: as => (a :: as).take k :: chunksOfGo k fuel ((a :: as).drop k)

/-- Split a list into consecutive chunks of at most `k` elements
(`range(0, len(l), 20)` slicing, seed.py lines 188-190 and 274-276). -/
def chunksOf (k : Nat) (l : List α) : List (List α) :=
  if k = 0 then [] else chunksOfGo k l.length l

/-- The child-table writes issued once an event id is in hand
(seed.py sections 2-7, lines 99-300): roster is posted unconditionally,
lenders and deals in one call each when non-empty, inventory and mail
tracking in chunks of 20 when non-empty, and the config record last. -/
def seedSteps (event_id : String) (wb : Workbook) : List Step :=
  [Step.postChild "roster" (roster_data event_id wb.rosterTables)]
  ++ (if lenders_data event_id wb.rosterTables ≠ [] then
        [Step.postChild "lenders" (lenders_data event_id wb.rosterTables)]
      else [])
  ++ (if inv_data event_id wb.inventory ≠ [] then
        (chunksOf 20 (inv_data event_id wb.inventory)).map (Step.postChild "vehicle_inventory")
      else [])
  ++ (if deals_data event_id wb.dealLog ≠ [] then
        [Step.postChild "deals_v2" (deals_data event_id wb.dealLog)]
      else [])
  ++ (if mail_data event_id wb.mailTracking ≠ [] then
        (chunksOf 20 (mail_data event_id wb.mailTracking)).map (Step.postChild "mail_tracking")
      else [])
  ++ [Step.postChild "event_config" [config_record event_id]]

/-- The whole run: resolve the event, then either exit fatally with
code 1 (`if not event_id: sys.exit(1)`, seed.py lines 95-97) or issue
every child-table write. The first component is `some 1` on the fatal
exit and `Option.none` on normal completion. -/
def runPipeline (env : ResolveEnv) (wb : Workbook) : Option Nat × List Step :=
  let r := resolveEvent env
  if strTruthy r.1 then (Option.none, r.2 ++ seedSteps (r.1.getD "") wb)
  else (some 1, r.2)

/-- The event id a successful run stamps on every child record. -/
def resolvedId (env : ResolveEnv) : String :=
  (resolveEvent env).1.getD ""

/-- The payloads of the write calls a trace issues against one table. -/
def postsTo (tbl : String) (steps : List Step) : List (List Rec) :=
  steps.filterMap fun st =>
    match st with
    | Step.postChild t recs => if t = tbl then some recs else Option.none
    | _ => Option.none

/-- HTTP response as seen by the `api` helper: status code, raw body
text, and the decoded JSON value when `r.json()` succeeds (`J` is the
shape of the decoded payload). -/
structure HttpResponse (J : Type) where
  status : Nat
  text : String
  jsonOf : Option J

/-- What a successful `api` call hands back: the decoded JSON body, or
the raw text when the body is not JSON. -/
inductive ApiOut (J : Type) where
  | json (j : J)
  | text (t : String)
deriving DecidableEq

/-- `api` of seed.py (lines 15-22), with the network transport
abstracted away: given the `HttpResponse` the request produced, return
the call's result (`Option.none` is the failure sentinel returned for a
status >= 400) together with the error lines printed. -/
def api {J : Type} (r : HttpResponse J) : Option (ApiOut J) × List String :=
  if r.status ≥ 400 then
    (Option.none, ["  ERROR " ++ toString r.status ++ ": " ++ strTake r.text 200])
  else
    match r.jsonOf with
    | some j => (some (ApiOut.json j), [])
    | Option.none => (some (ApiOut.text r.text), [])

/-- Sheet with every cell missing. -/
def emptySheet : Sheet := { cell := fun _ _ => Cell.none, maxRow := 1 }

/-- Workbook with every cell of every sheet missing. -/
def wbEmpty : Workbook :=
  { rosterTables := emptySheet, inventory := emptySheet, dealLog := emptySheet,
    mailTracking := emptySheet }

/-- Backend state whose first query already holds a matching event. -/
def envOk : ResolveEnv :=
  { q1 := some [("e1", "Lincoln CDJR Feb/March 26")], profiles := Option.none,
    postEvents := fun _ => Option.none, sqlId := Option.none, q2 := Option.none }

/-- Backend state in which every resolution path fails: the query
returns no rows, the profiles lookup and the create call error out, the
SQL fallback yields no id, and the re-query returns no rows. -/
def envFail : ResolveEnv :=
  { q1 := some [], profiles := Option.none, postEvents := fun _ => Option.none,
    sqlId := Option.none, q2 := Option.none }

/-- Roster sheet holding one qualifying row (row 2: Jane Doe) and, in
row 3, a sentinel name ("None") with a populated phone cell. -/
def rosterSheetW : Sheet :=
  { cell := fun col row =>
      if col = "C" ∧ row = 2 then Cell.str "Jane Doe"
      else if col = "D" ∧ row = 2 then Cell.str "555-1212"
      else if col = "C" ∧ row = 3 then Cell.str "None"
      else if col = "D" ∧ row = 3 then Cell.str "555-9999"
      else Cell.none,
    maxRow := 3 }

/-- Workbook whose only populated sheet is the roster sheet. -/
def wbJane : Workbook :=
  { rosterTables := rosterSheetW, inventory := emptySheet, dealLog := emptySheet,
    mailTracking := emptySheet }

/-- Deal-log sheet yielding 21 qualifying deal rows (rows 9-29). -/
def dealsSheet21 : Sheet :=
  { cell := fun col row => if col = "I" then Cell.str ("Cust" ++ toString row) else Cell.none,
    maxRow := 29 }

/-- Workbook whose only populated sheet is the 21-row deal log. -/
def wbDeals21 : Workbook :=
  { rosterTables := emptySheet, inventory := emptySheet, dealLog := dealsSheet21,
    mailTracking := emptySheet }

/-- Inventory sheet yielding 21 qualifying inventory rows (rows 2-22). -/
def invSheet21 : Sheet :=
  { cell := fun col row => if col = "G" then Cell.str ("Model" ++ toString row) else Cell.none,
    maxRow := 22 }

/-- Workbook whose only populated sheet is the 21-row inventory. -/
def wbInv21 : Workbook :=
  { rosterTables := emptySheet, inventory := invSheet21, dealLog := emptySheet,
    mailTracking := emptySheet }

/-- Inventory sheet with one row carrying trade value 10000, unit cost
8000 and a sold marker in column C. -/
def invSheetOk : Sheet :=
  { cell := fun col row =>
      if col = "G" ∧ row = 2 then Cell.str "Ram 1500"
      else if col = "O" ∧ row = 2 then Cell.float 10000
      else if col = "P" ∧ row = 2 then Cell.float 12000
      else if col = "Q" ∧ row = 2 then Cell.float 8000
      else if col = "C" ∧ row = 2 then Cell.str "SOLD 3/1"
      else Cell.none,
    maxRow := 2 }

/-- Inventory sheet with one row whose trade value cell is present but
zero while the unit cost is 8000. -/
def invSheetZero : Sheet :=
  { cell := fun col row =>
      if col = "G" ∧ row = 2 then Cell.str "Ram 1500"
      else if col = "O" ∧ row = 2 then Cell.float 0
      else if col = "Q" ∧ row = 2 then Cell.float 8000
      else Cell.none,
    maxRow := 2 }

/-- Mail-tracking sheet with two qualifying rows: row 2 with 1000 pieces
and 50 responses, row 3 with 0 pieces and 50 responses. -/
def mailSheetW : Sheet :=
  { cell := fun col row =>
      if col = "D" then Cell.str "Lincoln"
      else if col = "E" then Cell.str "62656"
      else if col = "B" ∧ row = 2 then Cell.int 1000
      else if col = "F" ∧ row = 2 then Cell.int 50
      else if col = "B" ∧ row = 3 then Cell.int 0
      else if col = "F" ∧ row = 3 then Cell.int 50
      else Cell.none,
    maxRow := 3 }

/-- Flattening the chunks produced by the worker restores the list. -/
theorem chunksOfGo_flatten {α : Type} (k : Nat) (hk : k ≠ 0) :
    ∀ (fuel : Nat) (l : List α), l.length ≤ fuel → (chunksOfGo k fuel l).flatten = l := by
  intro fuel
  induction fuel with
  | zero =>
    intro l hl
    cases l with
    | nil => rfl
    | cons a as => simp at hl
  | succ fuel ih =>
    intro l hl
    cases l with
    | nil => rfl
    | cons a as =>
      have hdrop : ((a :: as).drop k).length ≤ fuel := by
        simp only [List.length_drop, List.length_cons]
        simp only [List.length_cons] at hl
        omega
      simp only [chunksOfGo, List.flatten_cons, ih _ hdrop, List.take_append_drop]

/-- Concatenating the chunks of a list restores the list. -/
theorem chunksOf_flatten {α : Type} (k : Nat) (hk : k ≠ 0) (l : List α) :
    (chunksOf k l).flatten = l := by
  simp only [chunksOf, if_neg hk]
  exact chunksOfGo_flatten k hk l.length l le_rfl

/-- Chunk count produced by the worker at chunk size 20. -/
theorem chunksOfGo20_length {α : Type} :
    ∀ (fuel : Nat) (l : List α), l.length ≤ fuel →
      (chunksOfGo 20 fuel l).length = (l.length + 19) / 20 := by
  intro fuel
  induction fuel with
  | zero =>
    intro l hl
    cases l with
    | nil => simp [chunksOfGo]
    | cons a as => simp at hl
  | succ fuel ih =>
    intro l hl
    cases l with
    | nil => simp [chunksOfGo]
    | cons a as =>
      have hdrop : ((a :: as).drop 20).length ≤ fuel := by
        simp only [List.length_drop, List.length_cons]
        simp only [List.length_cons] at hl
        omega
      simp only [chunksOfGo, List.length_cons, ih _ hdrop, List.length_drop]
      omega

/-- A list of `N` elements falls into `ceil(N / 20)` chunks of size 20. -/
theorem chunksOf20_length {α : Type} (l : List α) :
    (chunksOf 20 l).length = (l.length + 19) / 20 := by
  simp only [chunksOf, if_neg (by omega : ¬ (20 : Nat) = 0)]
  exact chunksOfGo20_length l.length l le_rfl

/-- Every element of a chunk is an element of the original list. -/
theorem mem_of_mem_chunksOf {α : Type} {k : Nat} (hk : k ≠ 0) {l c : List α} {x : α}
    (hc : c ∈ chunksOf k l) (hx : x ∈ c) : x ∈ l := by
  have hfl := chunksOf_flatten k hk l
  rw [← hfl]
  exact List.mem_flatten.mpr ⟨c, hc, hx⟩

/-- Looking up the key stored at the head of a record. -/
theorem getField_cons_eq (k : String) (v : Value) (l : Rec) :
    getField k ((k, v) :: l) = some v := by
  simp [getField]

/-- Lookup walks past a head entry with a different key. -/
theorem getField_cons_ne {k key : String} (v : Value) (l : Rec) (h : k ≠ key) :
    getField key ((k, v) :: l) = getField key l := by
  simp [getField, h]

/-- Every roster record carries the resolved event id. -/
theorem roster_data_event_id (eid : String) (ws : Sheet) :
    ∀ r ∈ roster_data eid ws, getField "event_id" r = some (Value.str eid) := by
  intro r hr
  obtain ⟨row, -, h⟩ := List.mem_filterMap.mp hr
  simp only [rosterRow] at h
  split at h
  · exact absurd h (by simp)
  · injection h with h
    subst h
    exact getField_cons_eq _ _ _

/-- Every lender record carries the resolved event id. -/
theorem lenders_data_event_id (eid : String) (ws : Sheet) :
    ∀ r ∈ lenders_data eid ws, getField "event_id" r = some (Value.str eid) := by
  intro r hr
  obtain ⟨row, -, h⟩ := List.mem_filterMap.mp hr
  simp only [lenderRow] at h
  split at h
  · exact absurd h (by simp)
  · injection h with h
    subst h
    exact getField_cons_eq _ _ _

/-- The inventory record's first field is the resolved event id. -/
theorem inv_item_event_id (eid : String) (ws : Sheet) (row : Nat) :
    getField "event_id" (inv_item eid ws row) = some (Value.str eid) := by
  simp only [inv_item, List.cons_append]
  exact getField_cons_eq _ _ _

/-- Every inventory record carries the resolved event id. -/
theorem inv_data_event_id (eid : String) (ws : Sheet) :
    ∀ r ∈ inv_data eid ws, getField "event_id" r = some (Value.str eid) := by
  intro r hr
  obtain ⟨row, -, h⟩ := List.mem_filterMap.mp hr
  simp only [invRow] at h
  split at h
  · exact absurd h (by simp)
  · injection h with h
    subst h
    exact inv_item_event_id eid ws row

/-- Every deal record carries the resolved event id. -/
theorem deals_data_event_id (eid : String) (ws : Sheet) :
    ∀ r ∈ deals_data eid ws, getField "event_id" r = some (Value.str eid) := by
  intro r hr
  obtain ⟨row, -, h⟩ := List.mem_filterMap.mp hr
  simp only [dealRow] at h
  split at h
  · exact absurd h (by simp)
  · injection h with h
    subst h
    exact getField_cons_eq _ _ _

/-- Every mail-tracking record carries the resolved event id. -/
theorem mail_data_event_id (eid : String) (ws : Sheet) :
    ∀ r ∈ mail_data eid ws, getField "event_id" r = some (Value.str eid) := by
  intro r hr
  obtain ⟨row, -, h⟩ := List.mem_filterMap.mp hr
  simp only [mailRow] at h
  split at h
  · exact absurd h (by simp)
  · injection h with h
    subst h
    exact getField_cons_eq _ _ _

/-- The config record carries the resolved event id. -/
theorem config_record_event_id (eid : String) :
    getField "event_id" (config_record eid) = some (Value.str eid) := by
  exact getField_cons_eq _ _ _

/-- The resolution phase issues no child-table write. -/
theorem resolve_no_child (env : ResolveEnv) (tbl : String) (recs : List Rec) :
    Step.postChild tbl recs ∉ (resolveEvent env).2 := by
  unfold resolveEvent
  split
  · simp
  · split
    · simp
    · split <;> simp

/-- `postsTo` distributes over trace concatenation. -/
theorem postsTo_append (tbl : String) (a b : List Step) :
    postsTo tbl (a ++ b) = postsTo tbl a ++ postsTo tbl b := by
  simp [postsTo, List.filterMap_append]

/-- `postsTo` on a single child write. -/
theorem postsTo_single (tbl t : String) (recs : List Rec) :
    postsTo tbl [Step.postChild t recs] = if t = tbl then [recs] else [] := by
  simp only [postsTo, List.filterMap]
  split <;> simp_all

/-- `postsTo` recovers the chunks written to the same table. -/
theorem postsTo_map_self (tbl : String) (cs : List (List Rec)) :
    postsTo tbl (cs.map (Step.postChild tbl)) = cs := by
  induction cs with
  | nil => simp [postsTo]
  | cons c rest ih => simpa [postsTo, List.filterMap_cons] using ih

/-- Chunked writes to one table are invisible to another table. -/
theorem postsTo_map_ne {tbl t : String} (h : t ≠ tbl) (cs : List (List Rec)) :
    postsTo tbl (cs.map (Step.postChild t)) = [] := by
  induction cs with
  | nil => simp [postsTo]
  | cons c rest ih => simp [postsTo, List.filterMap_cons, h, ih]

/-- The resolution trace contains no write to any child table. -/
theorem postsTo_resolve (env : ResolveEnv) (tbl : String) :
    postsTo tbl (resolveEvent env).2 = [] := by
  unfold resolveEvent
  split
  · simp [postsTo]
  · split
    · simp [postsTo]
    · split <;> simp [postsTo]

/-- `chunksOf` of the empty list is empty. -/
theorem chunksOf_nil {α : Type} (k : Nat) : chunksOf k ([] : List α) = [] := by
  unfold chunksOf
  split <;> rfl

/-- `postsTo` on the empty trace. -/
theorem postsTo_nil (tbl : String) : postsTo tbl [] = [] := rfl

/-- `postsTo` on a child write at the head of a trace. -/
theorem postsTo_cons_child (tbl t : String) (recs : List Rec) (rest : List Step) :
    postsTo tbl (Step.postChild t recs :: rest) =
      if t = tbl then recs :: postsTo tbl rest else postsTo tbl rest := by
  by_cases h : t = tbl <;> simp [postsTo, List.filterMap_cons, h]

/-- `postsTo` pushes through a conditional trace block. -/
theorem postsTo_ite (tbl : String) (c : Prop) [Decidable c] (a b : List Step) :
    postsTo tbl (if c then a else b) = if c then postsTo tbl a else postsTo tbl b := by
  split <;> rfl

/-- The roster table receives exactly one write per run, carrying the
whole roster record list (even when it is empty). -/
theorem postsTo_seed_roster (eid : String) (wb : Workbook) :
    postsTo "roster" (seedSteps eid wb) = [roster_data eid wb.rosterTables] := by
  simp only [seedSteps, postsTo_append, postsTo_ite, postsTo_single, postsTo_nil,
    postsTo_map_ne (show "vehicle_inventory" ≠ "roster" by decide),
    postsTo_map_ne (show "mail_tracking" ≠ "roster" by decide)]
  simp

/-- The lenders table receives one write when there are lender records
and none otherwise. -/
theorem postsTo_seed_lenders (eid : String) (wb : Workbook) :
    postsTo "lenders" (seedSteps eid wb) =
      if lenders_data eid wb.rosterTables ≠ [] then [lenders_data eid wb.rosterTables] else [] := by
  simp only [seedSteps, postsTo_append, postsTo_ite, postsTo_single, postsTo_nil,
    postsTo_map_ne (show "vehicle_inventory" ≠ "lenders" by decide),
    postsTo_map_ne (show "mail_tracking" ≠ "lenders" by decide)]
  simp

/-- The inventory table receives exactly the 20-record chunks of the
inventory record list, in order. -/
theorem postsTo_seed_inventory (eid : String) (wb : Workbook) :
    postsTo "vehicle_inventory" (seedSteps eid wb) = chunksOf 20 (inv_data eid wb.inventory) := by
  simp only [seedSteps, postsTo_append, postsTo_ite, postsTo_single, postsTo_nil,
    postsTo_map_self, postsTo_map_ne (show "mail_tracking" ≠ "vehicle_inventory" by decide)]
  simp only [show ("roster" = "vehicle_inventory") = False by simp,
    show ("lenders" = "vehicle_inventory") = False by simp,
    show ("deals_v2" = "vehicle_inventory") = False by simp,
    show ("event_config" = "vehicle_inventory") = False by simp,
    if_false, ite_self, List.nil_append, List.append_nil]
  split
  · rfl
  · rename_i h
    rw [not_not.mp h, chunksOf_nil]

/-- The deals table receives a single write holding every deal record
when there are any, and none otherwise — deals are not chunked. -/
theorem postsTo_seed_deals (eid : String) (wb : Workbook) :
    postsTo "deals_v2" (seedSteps eid wb) =
      if deals_data eid wb.dealLog ≠ [] then [deals_data eid wb.dealLog] else [] := by
  simp only [seedSteps, postsTo_append, postsTo_ite, postsTo_single, postsTo_nil,
    postsTo_map_ne (show "vehicle_inventory" ≠ "deals_v2" by decide),
    postsTo_map_ne (show "mail_tracking" ≠ "deals_v2" by decide)]
  simp

/-- The mail-tracking table receives exactly the 20-record chunks of the
mail record list, in order. -/
theorem postsTo_seed_mail (eid : String) (wb : Workbook) :
    postsTo "mail_tracking" (seedSteps eid wb) = chunksOf 20 (mail_data eid wb.mailTracking) := by
  simp only [seedSteps, postsTo_append, postsTo_ite, postsTo_single, postsTo_nil,
    postsTo_map_self, postsTo_map_ne (show "vehicle_inventory" ≠ "mail_tracking" by decide)]
  simp only [show ("roster" = "mail_tracking") = False by simp,
    show ("lenders" = "mail_tracking") = False by simp,
    show ("deals_v2" = "mail_tracking") = False by simp,
    show ("event_config" = "mail_tracking") = False by simp,
    if_false, ite_self, List.nil_append, List.append_nil]
  split
  · rfl
  · rename_i h
    rw [not_not.mp h, chunksOf_nil]

/-- The config table receives exactly one single-record write. -/
theorem postsTo_seed_config (eid : String) (wb : Workbook) :
    postsTo "event_config" (seedSteps eid wb) = [[config_record eid]] := by
  simp only [seedSteps, postsTo_append, postsTo_ite, postsTo_single, postsTo_nil,
    postsTo_map_ne (show "vehicle_inventory" ≠ "event_config" by decide),
    postsTo_map_ne (show "mail_tracking" ≠ "event_config" by decide)]
  simp

/-- Membership in a conditional block that is empty when disabled. -/
theorem mem_ite_nil {α : Type} {c : Prop} [Decidable c] {x : α} {l : List α}
    (h : x ∈ if c then l else []) : x ∈ l := by
  split at h
  · exact h
  · exact absurd h (List.not_mem_nil x)

/-- Every record of every child write issued after resolution carries
the resolved event id. -/
theorem seed_child_event_id (eid : String) (wb : Workbook) (tbl : String) (recs : List Rec)
    (h : Step.postChild tbl recs ∈ seedSteps eid wb) :
    ∀ r ∈ recs, getField "event_id" r = some (Value.str eid) := by
  simp only [seedSteps, List.append_assoc, List.mem_append, List.mem_singleton] at h
  rcases h with h | h | h | h | h | h
  · injection h with h1 h2
    subst h2
    exact roster_data_event_id eid wb.rosterTables
  · have hm := mem_ite_nil h
    rw [List.mem_singleton] at hm
    injection hm with h1 h2
    subst h2
    exact lenders_data_event_id eid wb.rosterTables
  · obtain ⟨chunk, hchunk, heq⟩ := List.mem_map.mp (mem_ite_nil h)
    injection heq with h1 h2
    subst h2
    intro r hr
    exact inv_data_event_id eid wb.inventory r
      (mem_of_mem_chunksOf (by omega) hchunk hr)
  · have hm := mem_ite_nil h
    rw [List.mem_singleton] at hm
    injection hm with h1 h2
    subst h2
    exact deals_data_event_id eid wb.dealLog
  · obtain ⟨chunk, hchunk, heq⟩ := List.mem_map.mp (mem_ite_nil h)
    injection heq with h1 h2
    subst h2
    intro r hr
    exact mail_data_event_id eid wb.mailTracking r
      (mem_of_mem_chunksOf (by omega) hchunk hr)
  · injection h with h1 h2
    subst h2
    intro r hr
    rw [List.mem_singleton] at hr
    subst hr
    exact config_record_event_id eid

/-- C1: if no event id is obtainable by any resolution path, the run
exits with code 1 having issued no child-table write; conversely a child
write appears in a trace only when the event id was resolved truthy. -/
theorem c1_parent_gate (env : ResolveEnv) (wb : Workbook) :
    (strTruthy (resolveEvent env).1 = false →
       (runPipeline env wb).1 = some 1 ∧
       ∀ st ∈ (runPipeline env wb).2, st.isChild = false) ∧
    (∀ st ∈ (runPipeline env wb).2, st.isChild = true →
       strTruthy (resolveEvent env).1 = true) := by
  constructor
  · intro h
    have htr : runPipeline env wb = (some 1, (resolveEvent env).2) := by
      simp only [runPipeline, h, Bool.false_eq_true, if_false]
    rw [htr]
    refine ⟨rfl, ?_⟩
    intro st hst
    cases st
    case postChild tbl recs => exact absurd hst (resolve_no_child env tbl recs)
    all_goals rfl
  · intro st hst hchild
    cases hx : strTruthy (resolveEvent env).1
    · simp only [runPipeline, hx, Bool.false_eq_true, if_false] at hst
      cases st
      case postChild tbl recs => exact absurd hst (resolve_no_child env tbl recs)
      all_goals simp [Step.isChild] at hchild
    · rfl

/-- Witness for C1: against a backend where every resolution path
fails, the run exits with code 1 and issues no child write. -/
theorem c1_parent_gate_witness :
    (runPipeline envFail wbEmpty).1 = some 1 ∧
    ∀ st ∈ (runPipeline envFail wbEmpty).2, st.isChild = false :=
  (c1_parent_gate envFail wbEmpty).1 (by decide)

/-- C8: every record of every child-table write of a run carries the
single resolved event id in its event_id field. -/
theorem c8_event_id (env : ResolveEnv) (wb : Workbook) (tbl : String) (recs : List Rec)
    (h : Step.postChild tbl recs ∈ (runPipeline env wb).2) :
    strTruthy (resolveEvent env).1 = true ∧
    ∀ r ∈ recs, getField "event_id" r = some (Value.str (resolvedId env)) := by
  cases hx : strTruthy (resolveEvent env).1
  · simp only [runPipeline, hx, Bool.false_eq_true, if_false] at h
    exact absurd h (resolve_no_child env tbl recs)
  · refine ⟨rfl, ?_⟩
    simp only [runPipeline, hx, if_true, List.mem_append] at h
    rcases h with h | h
    · exact absurd h (resolve_no_child env tbl recs)
    · exact seed_child_event_id (resolvedId env) wb tbl recs h

/-- Witness for C8: in a run against a backend holding event "e1" and a
workbook with one roster row, the roster write's records all carry the
resolved id. -/
theorem c8_event_id_witness :
    strTruthy (resolveEvent envOk).1 = true ∧
    ∀ r ∈ roster_data "e1" wbJane.rosterTables,
      getField "event_id" r = some (Value.str (resolvedId envOk)) :=
  c8_event_id envOk wbJane "roster" (roster_data "e1" wbJane.rosterTables) (by decide)

/-- C9: when the first query already returns a matching event, resolution
reuses the first row's id, issues only that query (no create call), and a
second resolution against the unchanged backend returns the same id. -/
theorem c9_idempotent (env env2 : ResolveEnv) (eid nm : String) (rest : List (String × String))
    (h1 : env.q1 = some ((eid, nm) :: rest)) (h2 : env2.q1 = some ((eid, nm) :: rest)) :
    (resolveEvent env).1 = some eid ∧
    (resolveEvent env).2 = [Step.getEvents] ∧
    (resolveEvent env2).1 = (resolveEvent env).1 := by
  unfold resolveEvent
  rw [h1, h2]
  exact ⟨rfl, rfl, rfl⟩

/-- Witness for C9: resolving twice against a backend holding event
"e1" yields "e1" both times with only the lookup call. -/
theorem c9_idempotent_witness :
    (resolveEvent envOk).1 = some "e1" ∧
    (resolveEvent envOk).2 = [Step.getEvents] ∧
    (resolveEvent envOk).1 = (resolveEvent envOk).1 :=
  c9_idempotent envOk envOk "e1" "Lincoln CDJR Feb/March 26" [] rfl rfl

/-- C2 counterexample: the claim says toText returns absent (None) for
empty input, but `s("")` returns the empty string, not None. -/
theorem c2_counterexample :
    s (Cell.str "") = some "" ∧ s (Cell.str "") ≠ Option.none := by
  exact ⟨rfl, by decide⟩

/-- C2 as amended: toNumber and toInteger return absent on empty or
missing input and parsed values otherwise; toText returns absent only
for missing input and the trimmed string form (possibly empty) for
present input; on the spec's examples toInteger("42.9") = 42,
toNumber("") = absent, toText("  Bob  ") = "Bob". -/
theorem c2_amended_coercions :
    (n Cell.none = Option.none ∧ i Cell.none = Option.none ∧ s Cell.none = Option.none) ∧
    (n (Cell.str "") = Option.none ∧ i (Cell.str "") = Option.none) ∧
    (∀ t : String, s (Cell.str t) = some (pyStrip t)) ∧
    i (Cell.str "42.9") = some 42 ∧
    n (Cell.str "42.9") = some ((429 : PyRat) / 10) ∧
    s (Cell.str "  Bob  ") = some "Bob" := by
  refine ⟨⟨rfl, rfl, rfl⟩, ⟨rfl, rfl⟩, fun t => rfl, by decide, by decide, by decide⟩

/-- C7: the write client returns the failure sentinel (None) and logs
the status with the 200-character-truncated body on any status >= 400,
and returns the parsed response on a success status. -/
theorem c7_api_error_handling {J : Type} (r : HttpResponse J) :
    (r.status ≥ 400 →
       (api r).1 = Option.none ∧
       (api r).2 = ["  ERROR " ++ toString r.status ++ ": " ++ strTake r.text 200]) ∧
    (r.status < 400 →
       (api r).2 = [] ∧
       (∀ j, r.jsonOf = some j → (api r).1 = some (ApiOut.json j)) ∧
       (r.jsonOf = Option.none → (api r).1 = some (ApiOut.text r.text))) := by
  constructor
  · intro h
    simp [api, h]
  · intro h
    have h4 : ¬ r.status ≥ 400 := by omega
    refine ⟨?_, ?_, ?_⟩
    · rcases hj : r.jsonOf with _ | j <;> simp [api, h4, hj]
    · intro j hj
      simp [api, h4, hj]
    · intro hj
      simp [api, h4, hj]

/-- Witness for C7: a 500 response yields the sentinel and an error log
line; a 200 response with a JSON body yields the parsed value. -/
theorem c7_api_error_handling_witness :
    (api ({ status := 500, text := "boom", jsonOf := Option.none } : HttpResponse Nat)).1
      = Option.none ∧
    (api ({ status := 500, text := "boom", jsonOf := Option.none } : HttpResponse Nat)).2
      = ["  ERROR 500: boom"] ∧
    (api ({ status := 200, text := "x", jsonOf := some 7 } : HttpResponse Nat)).1
      = some (ApiOut.json 7) := by
  have h1 := (c7_api_error_handling
    ({ status := 500, text := "boom", jsonOf := Option.none } : HttpResponse Nat)).1 (by decide)
  have h2 := ((c7_api_error_handling
    ({ status := 200, text := "x", jsonOf := some 7 } : HttpResponse Nat)).2 (by decide)).2.1 7 rfl
  exact ⟨h1.1, h1.2.trans (by decide), h2⟩

/-- C4 counterexample: a run with 21 deal records issues one write call
to the deals table, not ceil(21/20) = 2 — deals are not chunked. -/
theorem c4_counterexample :
    (deals_data "e1" wbDeals21.dealLog).length = 21 ∧
    (postsTo "deals_v2" (runPipeline envOk wbDeals21).2).length = 1 ∧
    (21 + 19) / 20 = 2 := by
  refine ⟨by decide, by decide, by decide⟩

/-- C4 as amended: only inventory and mail tracking are chunked — each
receives exactly ceil(N/20) write calls (here written (N+19)/20) whose
concatenation is the original record list in order; roster is always
written in exactly one call (even when empty), lenders and deals in one
unchunked call when non-empty and none when empty, and config in one
single-record call. -/
theorem c4_amended_chunking (env : ResolveEnv) (wb : Workbook)
    (h : strTruthy (resolveEvent env).1 = true) :
    postsTo "vehicle_inventory" (runPipeline env wb).2
      = chunksOf 20 (inv_data (resolvedId env) wb.inventory) ∧
    (postsTo "vehicle_inventory" (runPipeline env wb).2).length
      = ((inv_data (resolvedId env) wb.inventory).length + 19) / 20 ∧
    (postsTo "vehicle_inventory" (runPipeline env wb).2).flatten
      = inv_data (resolvedId env) wb.inventory ∧
    postsTo "mail_tracking" (runPipeline env wb).2
      = chunksOf 20 (mail_data (resolvedId env) wb.mailTracking) ∧
    (postsTo "mail_tracking" (runPipeline env wb).2).length
      = ((mail_data (resolvedId env) wb.mailTracking).length + 19) / 20 ∧
    (postsTo "mail_tracking" (runPipeline env wb).2).flatten
      = mail_data (resolvedId env) wb.mailTracking ∧
    postsTo "roster" (runPipeline env wb).2 = [roster_data (resolvedId env) wb.rosterTables] ∧
    postsTo "lenders" (runPipeline env wb).2
      = (if lenders_data (resolvedId env) wb.rosterTables ≠ []
         then [lenders_data (resolvedId env) wb.rosterTables] else []) ∧
    postsTo "deals_v2" (runPipeline env wb).2
      = (if deals_data (resolvedId env) wb.dealLog ≠ []
         then [deals_data (resolvedId env) wb.dealLog] else []) ∧
    postsTo "event_config" (runPipeline env wb).2 = [[config_record (resolvedId env)]] := by
  have htr : (runPipeline env wb).2 = (resolveEvent env).2 ++ seedSteps (resolvedId env) wb := by
    simp only [runPipeline, resolvedId, h, if_true]
  rw [htr]
  simp only [postsTo_append, postsTo_resolve, List.nil_append, postsTo_seed_roster,
    postsTo_seed_lenders, postsTo_seed_inventory, postsTo_seed_deals, postsTo_seed_mail,
    postsTo_seed_config]
  refine ⟨?_, ?_, ?_, ?_, ?_, ?_, ?_, ?_, ?_, ?_⟩
  all_goals
    first
    | trivial
    | exact chunksOf20_length _
    | exact chunksOf_flatten 20 (by omega) _

/-- Witness for C4 as amended: a run over 21 inventory rows issues 2
chunked inventory writes whose concatenation is the full record list. -/
theorem c4_amended_chunking_witness :
    (postsTo "vehicle_inventory" (runPipeline envOk wbInv21).2).length
      = ((inv_data (resolvedId envOk) wbInv21.inventory).length + 19) / 20 ∧
    (postsTo "vehicle_inventory" (runPipeline envOk wbInv21).2).flatten
      = inv_data (resolvedId envOk) wbInv21.inventory ∧
    (inv_data (resolvedId envOk) wbInv21.inventory).length = 21 ∧
    (postsTo "vehicle_inventory" (runPipeline envOk wbInv21).2).length = 2 := by
  have h := c4_amended_chunking envOk wbInv21 (by decide)
  refine ⟨h.2.1, h.2.2.1, by decide, ?_⟩
  rw [h.2.1]
  decide

/-- C3 counterexample: a trade value that is present but zero, with a
present cost, yields no pricing-tier fields, although the claim says
availability of both suffices. -/
theorem c3_counterexample :
    n (invSheetZero.cell "O" 2) = some 0 ∧
    n (invSheetZero.cell "Q" 2) = some 8000 ∧
    getField "price_115" (inv_item "e1" invSheetZero 2) = Option.none ∧
    getField "profit_115" (inv_item "e1" invSheetZero 2) = Option.none ∧
    getField "cost_diff" (inv_item "e1" invSheetZero 2) = Option.none := by
  refine ⟨by decide, by decide, by decide, by decide, by decide⟩

/-- `getField` pushes through a conditional record block. -/
theorem getField_ite (key : String) (c : Prop) [Decidable c] (a b : Rec) :
    getField key (if c then a else b) = if c then getField key a else getField key b := by
  split <;> rfl

/-- C3 as amended: when trade value T and unit cost C are both truthy
(present and non-zero), the record carries cost_diff = round(T-C, 2) and,
for each multiplier m, price = round(T*m, 2) and
profit = round(price - C, 2); when either is absent or zero, none of
these fields is present. -/
theorem c3_pricing_tiers (eid : String) (ws : Sheet) (row : Nat) :
    (∀ t c : PyRat, n (ws.cell "O" row) = some t → n (ws.cell "Q" row) = some c →
       t ≠ 0 → c ≠ 0 →
       getField "cost_diff" (inv_item eid ws row) = some (Value.num (pyRound 2 (t - c))) ∧
       getField "price_115" (inv_item eid ws row)
         = some (Value.num (pyRound 2 (t * (1.15 : PyRat)))) ∧
       getField "profit_115" (inv_item eid ws row)
         = some (Value.num (pyRound 2 (pyRound 2 (t * (1.15 : PyRat)) - c))) ∧
       getField "price_120" (inv_item eid ws row)
         = some (Value.num (pyRound 2 (t * (1.20 : PyRat)))) ∧
       getField "profit_120" (inv_item eid ws row)
         = some (Value.num (pyRound 2 (pyRound 2 (t * (1.20 : PyRat)) - c))) ∧
       getField "price_125" (inv_item eid ws row)
         = some (Value.num (pyRound 2 (t * (1.25 : PyRat)))) ∧
       getField "profit_125" (inv_item eid ws row)
         = some (Value.num (pyRound 2 (pyRound 2 (t * (1.25 : PyRat)) - c))) ∧
       getField "price_130" (inv_item eid ws row)
         = some (Value.num (pyRound 2 (t * (1.30 : PyRat)))) ∧
       getField "profit_130" (inv_item eid ws row)
         = some (Value.num (pyRound 2 (pyRound 2 (t * (1.30 : PyRat)) - c)))) ∧
    ((n (ws.cell "O" row) = Option.none ∨ n (ws.cell "O" row) = some 0 ∨
      n (ws.cell "Q" row) = Option.none ∨ n (ws.cell "Q" row) = some 0) →
       getField "cost_diff" (inv_item eid ws row) = Option.none ∧
       getField "price_115" (inv_item eid ws row) = Option.none ∧
       getField "profit_115" (inv_item eid ws row) = Option.none ∧
       getField "price_120" (inv_item eid ws row) = Option.none ∧
       getField "profit_120" (inv_item eid ws row) = Option.none ∧
       getField "price_125" (inv_item eid ws row) = Option.none ∧
       getField "profit_125" (inv_item eid ws row) = Option.none ∧
       getField "price_130" (inv_item eid ws row) = Option.none ∧
       getField "profit_130" (inv_item eid ws row) = Option.none) := by
  constructor
  · intro t c ht hc ht0 hc0
    have htt : ratTruthy (some t) = true := by simp [ratTruthy, ht0]
    have hct : ratTruthy (some c) = true := by simp [ratTruthy, hc0]
    simp [inv_item, ht, hc, htt, hct, tierFields, tierList, getField, getField_ite]
  · intro h
    rcases h with h | h | h | h
    · have hf : ratTruthy (n (ws.cell "O" row)) = false := by simp [h, ratTruthy]
      simp [inv_item, hf, tierFields, tierList, getField, getField_ite]
    · have hf : ratTruthy (n (ws.cell "O" row)) = false := by simp [h, ratTruthy]
      simp [inv_item, hf, tierFields, tierList, getField, getField_ite]
    · have hf : ratTruthy (n (ws.cell "Q" row)) = false := by simp [h, ratTruthy]
      simp [inv_item, hf, tierFields, tierList, getField, getField_ite]
    · have hf : ratTruthy (n (ws.cell "Q" row)) = false := by simp [h, ratTruthy]
      simp [inv_item, hf, tierFields, tierList, getField, getField_ite]

/-- Witness for C3 as amended: trade 10000 and cost 8000 yield the
spec's example values price_115 = 11500.0 and profit_115 = 3500.0. -/
theorem c3_pricing_tiers_witness :
    getField "price_115" (inv_item "e1" invSheetOk 2) = some (Value.num (11500 : PyRat)) ∧
    getField "profit_115" (inv_item "e1" invSheetOk 2) = some (Value.num (3500 : PyRat)) ∧
    getField "cost_diff" (inv_item "e1" invSheetOk 2) = some (Value.num (2000 : PyRat)) := by
  obtain ⟨hcd, hp, hf, -⟩ := (c3_pricing_tiers "e1" invSheetOk 2).1 10000 8000
    (by decide) (by decide) (by decide) (by decide)
  exact ⟨hp.trans (by decide), hf.trans (by decide), hcd.trans (by decide)⟩

/-- C5: every mail-tracking record's response rate equals
round(totalResponses / piecesSent, 4) when pieces sent and total
responses are both truthy (non-absent and non-zero), and 0 otherwise, so
division by zero never occurs. -/
theorem c5_response_rate (eid : String) (ws : Sheet) (row : Nat) (r : Rec)
    (h : mailRow eid ws row = some r) :
    getField "response_rate" r =
      some (if (i (ws.cell "B" row)).getD 0 ≠ 0 ∧ (i (ws.cell "F" row)).getD 0 ≠ 0 then
              Value.num (pyRound 4 ((((i (ws.cell "F" row)).getD 0 : Int) : PyRat)
                / (((i (ws.cell "B" row)).getD 0 : Int) : PyRat)))
            else Value.int 0) := by
  simp only [mailRow] at h
  split at h
  · exact absurd h (by simp)
  · injection h with h
    subst h
    rcases hp : i (ws.cell "B" row) with _ | p
    · simp [getField, intTruthy, hp]
    · rcases ht : i (ws.cell "F" row) with _ | tr
      · simp [getField, intTruthy, hp, ht]
      · by_cases hp0 : p = 0
        · simp [getField, intTruthy, hp, ht, hp0]
        · by_cases ht0 : tr = 0
          · simp [getField, intTruthy, hp, ht, hp0, ht0]
          · simp [getField, intTruthy, hp, ht, hp0, ht0]

/-- Witness for C5: 1000 pieces and 50 responses give rate 0.05; zero
pieces give rate 0. -/
theorem c5_response_rate_witness :
    getField "response_rate" ((mailRow "e1" mailSheetW 2).getD [])
      = some (Value.num (PyRat.mk' 1 20)) ∧
    getField "response_rate" ((mailRow "e1" mailSheetW 3).getD [])
      = some (Value.int 0) := by
  have h2 := c5_response_rate "e1" mailSheetW 2 ((mailRow "e1" mailSheetW 2).getD []) (by decide)
  have h3 := c5_response_rate "e1" mailSheetW 3 ((mailRow "e1" mailSheetW 3).getD []) (by decide)
  exact ⟨h2.trans (by decide), h3.trans (by decide)⟩

/-- C6: a roster row is excluded exactly when its name cell is absent,
trims to empty, or lowercases to a sentinel ("none"/"spare"), regardless
of every other cell; every included record takes its role from the
name-to-role lookup (default "sales"), confirmed = true and
commission = 0.25; and the roster output is exactly the qualifying rows
of the scanned range. -/
theorem c6_roster_filter (eid : String) (ws : Sheet) (row : Nat) :
    (rosterRow eid ws row = Option.none ↔
       s (ws.cell "C" row) = Option.none ∨
       ∃ t, s (ws.cell "C" row) = some t ∧
         (t = "" ∨ pyLower t = "none" ∨ pyLower t = "spare")) ∧
    (∀ r, rosterRow eid ws row = some r →
       getField "role" r = some (Value.str (roles_map ((s (ws.cell "C" row)).getD ""))) ∧
       getField "confirmed" r = some (Value.bool true) ∧
       getField "commission_pct" r = some (Value.num (0.25 : PyRat))) ∧
    roster_data eid ws = (List.range' 2 16).filterMap (rosterRow eid ws) := by
  refine ⟨?_, ?_, rfl⟩
  · rcases hc : s (ws.cell "C" row) with _ | t
    · simp [rosterRow, hc, strTruthy]
    · by_cases h0 : t = ""
      · simp [rosterRow, hc, strTruthy, h0]
      · by_cases hn : pyLower t = "none"
        · simp [rosterRow, hc, strTruthy, h0, hn]
        · by_cases hsp : pyLower t = "spare"
          · simp [rosterRow, hc, strTruthy, h0, hsp]
          · simp [rosterRow, hc, strTruthy, h0, hn, hsp]
  · intro r hr
    simp only [rosterRow] at hr
    split at hr
    · exact absurd hr (by simp)
    · injection hr with hr
      subst hr
      refine ⟨?_, ?_, ?_⟩ <;> simp [getField]

/-- Witness for C6: the sentinel row ("None") is excluded although its
phone cell is populated; the qualifying row gets role "sales",
confirmed and commission 0.25. -/
theorem c6_roster_filter_witness :
    rosterRow "e1" rosterSheetW 3 = Option.none ∧
    getField "role" ((rosterRow "e1" rosterSheetW 2).getD []) = some (Value.str "sales") ∧
    getField "confirmed" ((rosterRow "e1" rosterSheetW 2).getD []) = some (Value.bool true) ∧
    getField "commission_pct" ((rosterRow "e1" rosterSheetW 2).getD [])
      = some (Value.num (0.25 : PyRat)) := by
  have hex := (c6_roster_filter "e1" rosterSheetW 3).1.mpr
    (Or.inr ⟨"None", by decide, Or.inr (Or.inl (by decide))⟩)
  have hinc := (c6_roster_filter "e1" rosterSheetW 2).2.1
    ((rosterRow "e1" rosterSheetW 2).getD []) (by decide)
  exact ⟨hex, hinc.1.trans (by decide), hinc.2.1, hinc.2.2⟩

/-- C10: an inventory record's sold_status is "sold" exactly when the
status cell coerces to a non-empty string whose lowercase form contains
"sold", and "available" in every other case. -/
theorem c10_sold_status (eid : String) (ws : Sheet) (row : Nat) :
    (getField "sold_status" (inv_item eid ws row) = some (Value.str "sold") ↔
       ∃ t, s (ws.cell "C" row) = some t ∧ t ≠ "" ∧ pyIn "sold" (pyLower t) = true) ∧
    (getField "sold_status" (inv_item eid ws row) = some (Value.str "sold") ∨
     getField "sold_status" (inv_item eid ws row) = some (Value.str "available")) := by
  constructor
  · rcases hc : s (ws.cell "C" row) with _ | t
    · simp [inv_item, getField, hc, strTruthy]
    · by_cases h0 : t = ""
      · simp [inv_item, getField, hc, strTruthy, h0]
      · cases hin : pyIn "sold" (pyLower t)
        · simp [inv_item, getField, hc, strTruthy, h0, hin]
        · simp [inv_item, getField, hc, strTruthy, h0, hin]
  · rcases hc : s (ws.cell "C" row) with _ | t
    · refine Or.inr ?_
      simp [inv_item, getField, hc, strTruthy]
    · by_cases h0 : t = ""
      · refine Or.inr ?_
        simp [inv_item, getField, hc, strTruthy, h0]
      · cases hin : pyIn "sold" (pyLower t)
        · refine Or.inr ?_
          simp [inv_item, getField, hc, strTruthy, h0, hin]
        · refine Or.inl ?_
          simp [inv_item, getField, hc, strTruthy, h0, hin]

/-- Witness for C10: the cell "SOLD 3/1" yields sold_status "sold". -/
theorem c10_sold_status_witness :
    getField "sold_status" (inv_item "e1" invSheetOk 2) = some (Value.str "sold") :=
  (c10_sold_status "e1" invSheetOk 2).1.mpr ⟨"SOLD 3/1", by decide, by decide, by decide⟩
